import Mathlib

/-!
Verification of the scsk-fb-autoposter scripts: a shallow embedding of the
behavioural core of `fb_poster.py`, `linkedin_poster.py` and
`fb-autoposter/fb_poster_local.py` (selector, formatter, interval gate,
media selector, posted-log persistence and the orchestration in `main`),
with theorems settling the specification claims about them.

External effects (file system, HTTP, wall clock, random draws) are made
explicit parameters: random choices become arguments, the posted-log file
becomes an explicit value threaded through, HTTP outcomes become inputs,
and every `save_posted_log` call is recorded in an explicit write trace.
-/

/-- A content row as loaded from `content.csv` by `load_content` in all
three scripts: fields `id`, `pillar`, `content`, `hashtags`, `cta`. -/
structure Post where
  id : String
  pillar : String
  content : String
  hashtags : String
  cta : String
deriving DecidableEq

/-- The posted-log dictionary persisted in `posted.json` /
`posted_linkedin.json`: `posted_ids` (ordered list of published record
ids), `last_post_time` (ISO timestamp string or null) and `last_post_id`
(remote post id or null; absent before the first success, modelled as
`none`). -/
structure PostedLog where
  posted_ids : List String
  last_post_time : Option String
  last_post_id : Option String
deriving DecidableEq

/-- `get_next_posts(posts, posted_log, count)` from `fb_poster.py`
(lines 70-80): filter the catalog to rows whose id is not in
`posted_log['posted_ids']`; when the filter is empty, clear the ids in
memory (cycle reset, no save) and use the full catalog; return the first
`count` rows.  The (possibly reset) in-memory log is returned explicitly
since Python mutates `posted_log` in place. -/
def get_next_posts (posts : List Post) (posted_log : PostedLog) (count : Nat) :
    PostedLog × List Post :=
  let available := posts.filter (fun p => decide (p.id ∉ posted_log.posted_ids))
  if available.isEmpty then
    let posted_log' := { posted_log with posted_ids := ([] : List String) }
    (posted_log', posts.take count)
  else
    (posted_log, available.take count)

/-- `get_next_posts(posts, posted_log, count)` from `linkedin_poster.py`
(lines 74-88): same selection as the Facebook variant, except that on a
cycle reset it immediately calls `save_posted_log(posted_log)`.  The middle
component is the list of logs written to disk during the call. -/
def get_next_posts_li (posts : List Post) (posted_log : PostedLog) (count : Nat) :
    PostedLog × List PostedLog × List Post :=
  let available := posts.filter (fun p => decide (p.id ∉ posted_log.posted_ids))
  if available.isEmpty then
    let posted_log' := { posted_log with posted_ids := ([] : List String) }
    (posted_log', [posted_log'], posts.take count)
  else
    (posted_log, [], available.take count)

/-- `get_next_post(posts, posted_log)` from
`fb-autoposter/fb_poster_local.py` (lines 69-79): like the LinkedIn
variant it saves the cleared log at reset time, and it returns
`available[0]` or `None`.  Middle component: logs written during the
call. -/
def get_next_post_local (posts : List Post) (posted_log : PostedLog) :
    PostedLog × List PostedLog × Option Post :=
  let available := posts.filter (fun p => decide (p.id ∉ posted_log.posted_ids))
  if available.isEmpty then
    let posted_log' := { posted_log with posted_ids := ([] : List String) }
    (posted_log', [posted_log'], posts.head?)
  else
    (posted_log, [], available.head?)

/-- `format_post_variant(post)` from `fb_poster.py` (lines 82-116).
The random draws are explicit parameters: `variant` is
`random.choice([1, 2, 3, 4, 5])` (the final `else` branch of the Python
`if`/`elif` chain is variant 5), `addEmoji` is the 1-in-3 coin,
`emoji` the emoji drawn from `EMOJIS`, and `atStart` tells whether
`insert_pos` was `0` (prepend) rather than `-1` (append). -/
def format_post_variant (post : Post) (variant : Nat) (addEmoji : Bool)
    (emoji : String) (atStart : Bool) : String :=
  let content := post.content
  let hashtags := post.hashtags
  let cta := post.cta
  let full_post :=
    if variant = 1 then content ++ "\n\n" ++ cta ++ "\n\n" ++ hashtags
    else if variant = 2 then hashtags ++ "\n\n" ++ content ++ "\n\n" ++ cta
    else if variant = 3 then content ++ "\n\n" ++ hashtags ++ "\n\n" ++ cta
    else if variant = 4 then content ++ "\n\n\n" ++ cta ++ "\n\n" ++ hashtags
    else content ++ "\n" ++ cta ++ "\n" ++ hashtags
  if addEmoji then
    if atStart then emoji ++ " " ++ full_post
    else full_post ++ " " ++ emoji
  else full_post

/-- `format_post(post)` from `linkedin_poster.py` (lines 90-99): the fixed
template `content`, `cta`, `hashtags` separated by blank lines. -/
def format_post (post : Post) : String :=
  post.content ++ "\n\n" ++ post.cta ++ "\n\n" ++ post.hashtags

/-- `format_post(post)` from `fb-autoposter/fb_poster_local.py`
(lines 81-82): identical fixed template. -/
def format_post_local (post : Post) : String :=
  post.content ++ "\n\n" ++ post.cta ++ "\n\n" ++ post.hashtags

/-- A structural piece of a formatted post: one of the three payload
fields of the record, or a literal separator/decoration. -/
inductive Piece where
  | body : Piece
  | cta : Piece
  | hashtags : Piece
  | lit : String → Piece
deriving DecidableEq

/-- Render one piece against a record. -/
def renderPiece (post : Post) : Piece → String
  | Piece.body => post.content
  | Piece.cta => post.cta
  | Piece.hashtags => post.hashtags
  | Piece.lit s => s

/-- Concatenate rendered pieces. -/
def concatPieces (post : Post) : List Piece → String
  | [] => ""
  | piece :: rest => renderPiece post piece ++ concatPieces post rest

/-- The five templates of `format_post_variant` as piece lists, mirroring
the Python f-strings one branch at a time (the final case is variant 5). -/
def variant_pieces (variant : Nat) : List Piece :=
  if variant = 1 then
    [Piece.body, Piece.lit "\n\n", Piece.cta, Piece.lit "\n\n", Piece.hashtags]
  else if variant = 2 then
    [Piece.hashtags, Piece.lit "\n\n", Piece.body, Piece.lit "\n\n", Piece.cta]
  else if variant = 3 then
    [Piece.body, Piece.lit "\n\n", Piece.hashtags, Piece.lit "\n\n", Piece.cta]
  else if variant = 4 then
    [Piece.body, Piece.lit "\n\n\n", Piece.cta, Piece.lit "\n\n", Piece.hashtags]
  else
    [Piece.body, Piece.lit "\n", Piece.cta, Piece.lit "\n", Piece.hashtags]

/-- The full output of `format_post_variant` as a piece list: the chosen
template with the optional emoji decoration prepended or appended. -/
def format_pieces (variant : Nat) (addEmoji : Bool) (emoji : String)
    (atStart : Bool) : List Piece :=
  let ps := variant_pieces variant
  if addEmoji then
    if atStart then Piece.lit (emoji ++ " ") :: ps
    else ps ++ [Piece.lit (" " ++ emoji)]
  else ps

/-- Python `int()` applied to a rational: truncation toward zero. -/
def pyInt (q : ℚ) : ℤ := if 0 ≤ q then ⌊q⌋ else ⌈q⌉

/-- `should_post_now(posted_log, skip_wait)` from `fb_poster.py`
(lines 185-216).  Timestamps are modelled as epoch seconds
(`datetime.fromisoformat` and subtraction are external):
`last_post_time` is the parsed `posted_log['last_post_time']`,
`nowSec` is `datetime.now()`, and `required_minutes` is the value of
`random.randint(107, 158)`.  `minutes_since` is exact rational
arithmetic for `(now - last_post).total_seconds() / 60`. -/
def should_post_now (last_post_time : Option ℤ) (nowSec : ℤ)
    (required_minutes : ℤ) (skip_wait : Bool) : Bool × ℤ :=
  if skip_wait then (true, 0)
  else
    match last_post_time with
    | none => (true, 0)
    | some lastSec =>
      let minutes_since : ℚ := ((nowSec - lastSec : ℤ) : ℚ) / 60
      if (required_minutes : ℚ) ≤ minutes_since then (true, 0)
      else (false, pyInt ((required_minutes : ℚ) - minutes_since))

/-- The `image_files` pool from `fb_poster.py` `main` (lines 270-274). -/
def image_files : List String :=
  ["ad-1.png", "ad-2.png", "ad-3.png", "ad-4.png", "ad-5.png",
   "ad-6.png", "ad-7.png", "ad-8.png", "ad-9.png", "ad-10.png",
   "Screenshot1.jpg"]

/-- `image_index = (posts_count // 3) % len(image_files)` from
`fb_poster.py` `main` (line 277), where `posts_count` is
`len(posted_log['posted_ids'])`, the number of previously published
posts. -/
def image_index (posts_count : Nat) : Nat :=
  (posts_count / 3) % image_files.length

/-- The image-selection logic of `fb_poster.py` `main` (lines 264-286):
an image is attached only when `(posts_count + 1) % 3 == 0`, and then it
is `image_files[image_index]`.  The later `os.path.exists` check (which
can downgrade a selected image to no attachment) is external. -/
def select_image (posts_count : Nat) : Option String :=
  if (posts_count + 1) % 3 = 0 then image_files[image_index posts_count]?
  else none

/-- JSON values as written/read by `json.dump` / `json.load`, restricted
to the shapes the posted-log uses. -/
inductive Json where
  | null : Json
  | str : String → Json
  | arr : List Json → Json
  | obj : List (String × Json) → Json

/-- Encode an optional string as a JSON string or null. -/
def optStrJson : Option String → Json
  | none => Json.null
  | some s => Json.str s

/-- The JSON object `json.dump` writes for a posted log holding all three
fields (`save_posted_log`, `fb_poster.py` lines 65-68). -/
def PostedLog.toJson (L : PostedLog) : Json :=
  Json.obj [("posted_ids", Json.arr (L.posted_ids.map Json.str)),
            ("last_post_time", optStrJson L.last_post_time),
            ("last_post_id", optStrJson L.last_post_id)]

/-- Decode a JSON array of strings. -/
def decodeStrList : List Json → Option (List String)
  | [] => some []
  | Json.str s :: rest => (decodeStrList rest).map (fun xs => s :: xs)
  | _ => none

/-- Decode a JSON string-or-null. -/
def decodeOptStr : Json → Option (Option String)
  | Json.null => some none
  | Json.str s => some (some s)
  | _ => none

/-- First-match key lookup in a JSON object, as Python dict access. -/
def lookupKey (kvs : List (String × Json)) (k : String) : Option Json :=
  match kvs with
  | [] => none
  | (k', v) :: rest => if k' = k then some v else lookupKey rest k

/-- Read a `PostedLog` structure back out of the JSON value `json.load`
returns, performing the field accesses `log['posted_ids']`,
`log['last_post_time']`, `log['last_post_id']` the scripts do. -/
def PostedLog.fromJson (j : Json) : Option PostedLog :=
  match j with
  | Json.obj kvs =>
    match lookupKey kvs "posted_ids" with
    | some (Json.arr items) =>
      match decodeStrList items with
      | some ids =>
        match lookupKey kvs "last_post_time" with
        | some jt =>
          match decodeOptStr jt with
          | some t =>
            match lookupKey kvs "last_post_id" with
            | some ji =>
              match decodeOptStr ji with
              | some i =>
                some { posted_ids := ids, last_post_time := t, last_post_id := i }
              | none => none
            | none => none
          | none => none
        | none => none
      | none => none
    | _ => none
  | _ => none

/-- `save_posted_log(log)` (`fb_poster.py` lines 65-68): the JSON value
written to `posted.json`.  `json.dump` round-trips this fragment of JSON
(strings, arrays, null) exactly, so the file is modelled by its JSON
value. -/
def save_posted_log (L : PostedLog) : Json := PostedLog.toJson L

/-- `load_posted_log()` (`fb_poster.py` lines 58-63): return the JSON
value of the file when it exists, else the default
`{'posted_ids': [], 'last_post_time': None}`. -/
def load_posted_log (file : Option Json) : Json :=
  match file with
  | some j => j
  | none => Json.obj [("posted_ids", Json.arr []), ("last_post_time", Json.null)]

/-- The log update performed after a confirmed successful publish
(`fb_poster.py` lines 290-295, `linkedin_poster.py` lines 347-352):
append the record id, set `last_post_time` to now, set `last_post_id`
to the remote id. -/
def update_log (log : PostedLog) (postId : String) (nowIso : String)
    (remoteId : String) : PostedLog :=
  { log with
      posted_ids := log.posted_ids ++ [postId],
      last_post_time := some nowIso,
      last_post_id := some remoteId }

/-- Observable outcome of one run of `main`: the sequence of
`save_posted_log` writes, the process exit code (`exit(1)` on a failed
publish, 0 otherwise), and the final in-memory log. -/
structure RunOutcome where
  writes : List PostedLog
  exitCode : Nat
  finalLog : PostedLog
deriving DecidableEq

/-- `main()` of `fb_poster.py` (lines 218-299), with effects explicit:
`gate` is the result of `should_post_now`, `pub` the `(success, result)`
pair of `post_to_facebook`, `nowIso` the timestamp string of
`datetime.now().isoformat()`.  Not time yet → return (no write, exit 0);
no next post → return; publish success → update and save the log;
failure → no save, `exit(1)`. -/
def fb_main (posts : List Post) (diskLog : PostedLog) (gate : Bool × ℤ)
    (pub : Bool × String) (nowIso : String) : RunOutcome :=
  if gate.1 = false then { writes := [], exitCode := 0, finalLog := diskLog }
  else
    match (get_next_posts posts diskLog 1).2 with
    | [] => { writes := [], exitCode := 0, finalLog := (get_next_posts posts diskLog 1).1 }
    | post :: _ =>
      if pub.1 then
        { writes := [update_log (get_next_posts posts diskLog 1).1 post.id nowIso pub.2],
          exitCode := 0,
          finalLog := update_log (get_next_posts posts diskLog 1).1 post.id nowIso pub.2 }
      else
        { writes := [], exitCode := 1, finalLog := (get_next_posts posts diskLog 1).1 }

/-- `main()` of `linkedin_poster.py` (lines 304-356), with effects
explicit as in `fb_main`; there is no interval gate (cadence comes from
the outer scheduler plus a sleep), and `get_next_posts_li` may itself
write the reset log. -/
def li_main (posts : List Post) (diskLog : PostedLog) (pub : Bool × String)
    (nowIso : String) : RunOutcome :=
  match (get_next_posts_li posts diskLog 1).2.2 with
  | [] =>
    { writes := (get_next_posts_li posts diskLog 1).2.1, exitCode := 0,
      finalLog := (get_next_posts_li posts diskLog 1).1 }
  | post :: _ =>
    if pub.1 then
      { writes := (get_next_posts_li posts diskLog 1).2.1 ++
          [update_log (get_next_posts_li posts diskLog 1).1 post.id nowIso pub.2],
        exitCode := 0,
        finalLog := update_log (get_next_posts_li posts diskLog 1).1 post.id nowIso pub.2 }
    else
      { writes := (get_next_posts_li posts diskLog 1).2.1, exitCode := 1,
        finalLog := (get_next_posts_li posts diskLog 1).1 }

/-- Python truthiness of an optional string (`if not x`): `None` and the
empty string are falsy. -/
def pyTruthy : Option String → Bool
  | none => false
  | some s => decide (s ≠ "")

/-- `get_user_id()` from `linkedin_poster.py` (lines 119-156): use the
`LINKEDIN_USER_ID` environment value when truthy, else whatever the
identity-lookup API calls produced (`None` on failure). -/
def get_user_id (envUserId : Option String) (apiUserId : Option String) :
    Option String :=
  if pyTruthy envUserId then envUserId else apiUserId

/-- The `com.linkedin.ugc.ShareContent` part of the request payload built
by `post_to_linkedin`. -/
structure LiShareContent where
  text : String
  shareMediaCategory : String
  media : Option String
deriving DecidableEq

/-- Outcome of one `post_to_linkedin` call: the returned
`(success, result)` pair, and the payload actually submitted to the API
(`none` when the call aborted before submitting). -/
structure LiAttempt where
  success : Bool
  result : String
  submitted : Option (String × LiShareContent)
deriving DecidableEq

/-- `post_to_linkedin(message, post_number)` from `linkedin_poster.py`
(lines 218-298), effects explicit: `token` is `LINKEDIN_ACCESS_TOKEN`,
`envUserId`/`apiUserId` feed `get_user_id`, `assetUrn` is the result of
`upload_image_to_linkedin` (`None` on any media failure), and
`apiStatus`/`apiPostId`/`apiErrMsg` describe the `ugcPosts` HTTP
response.  Missing token or unresolved user id abort; a missing asset
falls back to a `shareMediaCategory = "NONE"` payload; the result is
success exactly when the API answers 201. -/
def post_to_linkedin (token envUserId apiUserId assetUrn : Option String)
    (message : String) (apiStatus : Nat) (apiPostId : String)
    (apiErrMsg : String) : LiAttempt :=
  if pyTruthy token = false then
    { success := false, result := "Missing credentials", submitted := none }
  else
    let user_id := get_user_id envUserId apiUserId
    if pyTruthy user_id = false then
      { success := false, result := "Could not fetch User ID", submitted := none }
    else
      let uid := user_id.getD ""
      let payload : LiShareContent :=
        match assetUrn with
        | some asset =>
          { text := message, shareMediaCategory := "IMAGE", media := some asset }
        | none =>
          { text := message, shareMediaCategory := "NONE", media := none }
      if apiStatus = 201 then
        { success := true, result := apiPostId, submitted := some (uid, payload) }
      else
        { success := false, result := apiErrMsg, submitted := some (uid, payload) }

/-- Sample record used by concrete witnesses. -/
def wPostA : Post :=
  { id := "1", pillar := "pillar", content := "body", hashtags := "#tag", cta := "call" }

/-- Sample empty posted log. -/
def wLogEmpty : PostedLog :=
  { posted_ids := [], last_post_time := none, last_post_id := none }

/-- Sample records "1", "2", "3" for the cycle-reset scenario. -/
def wPost1 : Post :=
  { id := "1", pillar := "a", content := "c1", hashtags := "#1", cta := "t1" }

/-- Second sample record. -/
def wPost2 : Post :=
  { id := "2", pillar := "b", content := "c2", hashtags := "#2", cta := "t2" }

/-- Third sample record. -/
def wPost3 : Post :=
  { id := "3", pillar := "c", content := "c3", hashtags := "#3", cta := "t3" }

/-- Three-record catalog with ids "1", "2", "3". -/
def wCatalog3 : List Post := [wPost1, wPost2, wPost3]

/-- Posted log that already contains all three ids. -/
def wLogAll3 : PostedLog :=
  { posted_ids := ["1", "2", "3"],
    last_post_time := some "2026-01-01T00:00:00",
    last_post_id := some "x" }

/-- Posted log already containing the single id "1" (forces a cycle
reset against a catalog whose only record has id "1"). -/
def wLogPosted1 : PostedLog :=
  { posted_ids := ["1"], last_post_time := some "2026-01-01T00:00:00",
    last_post_id := some "fb_1" }

/-- C1: if at least one catalog record has an id not yet in the posted
log, `get_next_posts` returns only records whose id is absent from the
log, in catalog order (a sublist of the catalog), with length at most
`count`. -/
theorem C1_selector_filters_in_order (posts : List Post) (L : PostedLog) (n : Nat)
    (h : ∃ p ∈ posts, p.id ∉ L.posted_ids) :
    (∀ q ∈ (get_next_posts posts L n).2, q.id ∉ L.posted_ids) ∧
    List.Sublist (get_next_posts posts L n).2 posts ∧
    (get_next_posts posts L n).2.length ≤ n := by
  obtain ⟨p, hp, hpid⟩ := h
  have hcon : ¬ ∀ a ∈ posts, a.id ∈ L.posted_ids := fun hc => hpid (hc p hp)
  have hsel : (get_next_posts posts L n).2 =
      (posts.filter (fun q => decide (q.id ∉ L.posted_ids))).take n := by
    simp [get_next_posts, hcon]
  refine ⟨?_, ?_, ?_⟩
  · intro q hq
    rw [hsel] at hq
    have hq2 : q ∈ posts.filter (fun r => decide (r.id ∉ L.posted_ids)) :=
      List.take_subset _ _ hq
    have := (List.mem_filter.mp hq2).2
    simpa using this
  · rw [hsel]
    exact (List.take_sublist _ _).trans (List.filter_sublist _)
  · rw [hsel]
    exact List.length_take_le _ _

/-- Witness for C1 at a concrete catalog and empty log. -/
theorem C1_selector_filters_in_order_witness :
    (∀ q ∈ (get_next_posts [wPostA] wLogEmpty 1).2, q.id ∉ wLogEmpty.posted_ids) ∧
    List.Sublist (get_next_posts [wPostA] wLogEmpty 1).2 [wPostA] ∧
    (get_next_posts [wPostA] wLogEmpty 1).2.length ≤ 1 :=
  C1_selector_filters_in_order [wPostA] wLogEmpty 1 ⟨wPostA, by decide, by decide⟩

/-- C2: when the catalog is non-empty and every catalog id is already in
the posted log, both `get_next_posts` variants clear the in-memory
posted ids and return the first `count` records of the full catalog
(the LinkedIn variant also writes the cleared log). -/
theorem C2_cycle_reset (posts : List Post) (L : PostedLog) (n : Nat)
    (_hne : posts ≠ []) (hall : ∀ p ∈ posts, p.id ∈ L.posted_ids) :
    get_next_posts posts L n = ({ L with posted_ids := ([] : List String) }, posts.take n) ∧
    get_next_posts_li posts L n =
      ({ L with posted_ids := ([] : List String) },
       [{ L with posted_ids := ([] : List String) }], posts.take n) := by
  constructor
  · simp only [get_next_posts]
    rw [if_pos]
    · simpa using hall
  · simp only [get_next_posts_li]
    rw [if_pos]
    · simpa using hall

/-- Witness for C2: catalog with ids "1","2","3", log containing all
three, count 1 — the log is reset to `[]` and record "1" is returned. -/
theorem C2_cycle_reset_witness :
    get_next_posts wCatalog3 wLogAll3 1 =
      ({ wLogAll3 with posted_ids := ([] : List String) }, [wPost1]) ∧
    get_next_posts_li wCatalog3 wLogAll3 1 =
      ({ wLogAll3 with posted_ids := ([] : List String) },
       [{ wLogAll3 with posted_ids := ([] : List String) }], [wPost1]) :=
  C2_cycle_reset wCatalog3 wLogAll3 1 (by decide) (by decide)

/-- C3 counterexample: in the `fb_poster.py` variant the cycle reset is
not written to storage when the run ends before a successful publish.
Catalog `[wPostA]` (id "1") against a log already holding "1": the
selector performs the reset (the in-memory ids become `[]` and record
"1" is selected), the publish fails, the run exits non-zero — and the
write trace is empty, so the cleared log was never persisted. -/
theorem C3_reset_not_persisted_counterexample :
    (get_next_posts [wPostA] wLogPosted1 1).1.posted_ids = [] ∧
    (get_next_posts [wPostA] wLogPosted1 1).2 = [wPostA] ∧
    (fb_main [wPostA] wLogPosted1 (true, 0) (false, "error") "t1").writes = [] ∧
    (fb_main [wPostA] wLogPosted1 (true, 0) (false, "error") "t1").exitCode = 1 := by
  decide

/-- C3 (amended): the LinkedIn and local variants write the cleared log
to storage immediately at reset time, so it is persisted even when the
run ends before a successful publish; the `fb_poster.py` variant
persists the reset only together with the next successful publish in
the same run (the saved log is the cleared log with the new id
appended), and a run whose publish fails leaves the reset in memory
only. -/
theorem C3_reset_persistence_amended (posts : List Post) (L : PostedLog)
    (n : Nat) (pub : Bool × String) (nowIso : String)
    (hall : ∀ p ∈ posts, p.id ∈ L.posted_ids) :
    (get_next_posts_li posts L n).2.1 = [{ L with posted_ids := ([] : List String) }] ∧
    { L with posted_ids := ([] : List String) } ∈ (li_main posts L pub nowIso).writes ∧
    (get_next_post_local posts L).2.1 = [{ L with posted_ids := ([] : List String) }] ∧
    (∀ p rest, posts = p :: rest → pub.1 = true →
      (fb_main posts L (true, 0) pub nowIso).writes =
        [update_log { L with posted_ids := ([] : List String) } p.id nowIso pub.2]) := by
  have hli : get_next_posts_li posts L n =
      ({ L with posted_ids := ([] : List String) },
       [{ L with posted_ids := ([] : List String) }], posts.take n) := by
    simp only [get_next_posts_li]
    rw [if_pos]
    · simpa using hall
  have hli1 : get_next_posts_li posts L 1 =
      ({ L with posted_ids := ([] : List String) },
       [{ L with posted_ids := ([] : List String) }], posts.take 1) := by
    simp only [get_next_posts_li]
    rw [if_pos]
    · simpa using hall
  have hfb1 : get_next_posts posts L 1 =
      ({ L with posted_ids := ([] : List String) }, posts.take 1) := by
    simp only [get_next_posts]
    rw [if_pos]
    · simpa using hall
  have hlocal : get_next_post_local posts L =
      ({ L with posted_ids := ([] : List String) },
       [{ L with posted_ids := ([] : List String) }], posts.head?) := by
    simp only [get_next_post_local]
    rw [if_pos]
    · simpa using hall
  refine ⟨by rw [hli], ?_, by rw [hlocal], ?_⟩
  · unfold li_main
    rw [hli1]
    cases posts with
    | nil => simp
    | cons p rest =>
      cases hpub : pub.1 <;> simp
  · intro p rest hposts hpub
    subst hposts
    unfold fb_main
    rw [hfb1]
    simp [hpub]

/-- Witness for the amended C3 at a concrete reset-then-publish run. -/
theorem C3_reset_persistence_amended_witness :
    (get_next_posts_li [wPostA] wLogPosted1 1).2.1 =
      [{ wLogPosted1 with posted_ids := ([] : List String) }] ∧
    { wLogPosted1 with posted_ids := ([] : List String) } ∈
      (li_main [wPostA] wLogPosted1 (true, "rid") "t1").writes ∧
    (get_next_post_local [wPostA] wLogPosted1).2.1 =
      [{ wLogPosted1 with posted_ids := ([] : List String) }] ∧
    (fb_main [wPostA] wLogPosted1 (true, 0) (true, "rid") "t1").writes =
      [update_log { wLogPosted1 with posted_ids := ([] : List String) }
        wPostA.id "t1" "rid"] := by
  have h := C3_reset_persistence_amended [wPostA] wLogPosted1 1 (true, "rid") "t1"
    (by decide)
  exact ⟨h.1, h.2.1, h.2.2.1, h.2.2.2 wPostA [] rfl rfl⟩

/-- C4: in a run that reaches a publish attempt (gate passed, a record
was selected), the log written to storage is exactly the in-memory log
with the new record id appended, `last_post_time` set and
`last_post_id` set, if and only if the publish succeeded; on a failed
publish nothing is saved (the LinkedIn variant keeps only the
cycle-reset write) and the process exits non-zero. -/
theorem C4_log_update_iff_publish_success (posts : List Post) (L : PostedLog)
    (g : ℤ) (pub : Bool × String) (nowIso : String) (post : Post)
    (rest : List Post)
    (hsel : (get_next_posts posts L 1).2 = post :: rest) :
    (pub.1 = true →
      fb_main posts L (true, g) pub nowIso =
        { writes := [update_log (get_next_posts posts L 1).1 post.id nowIso pub.2],
          exitCode := 0,
          finalLog := update_log (get_next_posts posts L 1).1 post.id nowIso pub.2 } ∧
      li_main posts L pub nowIso =
        { writes := (get_next_posts_li posts L 1).2.1 ++
            [update_log (get_next_posts posts L 1).1 post.id nowIso pub.2],
          exitCode := 0,
          finalLog := update_log (get_next_posts posts L 1).1 post.id nowIso pub.2 }) ∧
    (pub.1 = false →
      (fb_main posts L (true, g) pub nowIso).writes = [] ∧
      (fb_main posts L (true, g) pub nowIso).exitCode = 1 ∧
      (fb_main posts L (true, g) pub nowIso).finalLog = (get_next_posts posts L 1).1 ∧
      (li_main posts L pub nowIso).writes = (get_next_posts_li posts L 1).2.1 ∧
      (li_main posts L pub nowIso).exitCode = 1) := by
  have hagree : get_next_posts_li posts L 1 =
      ((get_next_posts posts L 1).1, (get_next_posts_li posts L 1).2.1,
       (get_next_posts posts L 1).2) := by
    simp only [get_next_posts, get_next_posts_li]
    by_cases hie : (posts.filter (fun p => decide (p.id ∉ L.posted_ids))).isEmpty
    · simp only [if_pos hie]
    · simp only [if_neg hie]
  have hselli : (get_next_posts_li posts L 1).2.2 = post :: rest := by
    rw [hagree]
    exact hsel
  have hli1 : (get_next_posts_li posts L 1).1 = (get_next_posts posts L 1).1 := by
    rw [hagree]
  constructor
  · intro hpub
    constructor
    · unfold fb_main
      rw [hsel]
      simp [hpub]
    · unfold li_main
      rw [hselli, hli1]
      simp [hpub]
  · intro hpub
    unfold fb_main li_main
    rw [hsel, hselli, hli1]
    simp [hpub]

/-- Witness for C4: one-record catalog, empty log, applied to a
successful and to a failed publish. -/
theorem C4_log_update_iff_publish_success_witness :
    (fb_main [wPostA] wLogEmpty (true, 0) (true, "rid") "t1" =
      { writes := [update_log (get_next_posts [wPostA] wLogEmpty 1).1
          wPostA.id "t1" "rid"],
        exitCode := 0,
        finalLog := update_log (get_next_posts [wPostA] wLogEmpty 1).1
          wPostA.id "t1" "rid" }) ∧
    (fb_main [wPostA] wLogEmpty (true, 0) (false, "e") "t1").writes = [] ∧
    (fb_main [wPostA] wLogEmpty (true, 0) (false, "e") "t1").exitCode = 1 := by
  have h1 := C4_log_update_iff_publish_success [wPostA] wLogEmpty 0 (true, "rid")
    "t1" wPostA [] (by decide)
  have h2 := C4_log_update_iff_publish_success [wPostA] wLogEmpty 0 (false, "e")
    "t1" wPostA [] (by decide)
  exact ⟨(h1.1 rfl).1, (h2.2 rfl).1, (h2.2 rfl).2.1⟩

/-- C5: with `skip_wait` false, `last_post_time` set and the required
interval drawn from [107, 158], `should_post_now` returns `(true, 0)`
exactly when the elapsed minutes reach the required interval and
otherwise `(false, ⌊required − elapsed⌋)`; in particular 200 elapsed
minutes always allow posting. -/
theorem C5_interval_gate (lastSec nowSec required : ℤ)
    (_h1 : 107 ≤ required) (h2 : required ≤ 158) :
    (should_post_now (some lastSec) nowSec required false =
      if (required : ℚ) ≤ ((nowSec - lastSec : ℤ) : ℚ) / 60 then (true, 0)
      else (false, ⌊(required : ℚ) - ((nowSec - lastSec : ℤ) : ℚ) / 60⌋)) ∧
    (nowSec = lastSec + 200 * 60 →
      should_post_now (some lastSec) nowSec required false = (true, 0)) := by
  constructor
  · by_cases hle : (required : ℚ) ≤ ((nowSec : ℚ) - (lastSec : ℚ)) / 60
    · simp [should_post_now, hle]
    · have hpos : ((nowSec : ℚ) - (lastSec : ℚ)) / 60 ≤ (required : ℚ) := by
        push_neg at hle
        linarith
      simp [should_post_now, pyInt, hle, hpos]
  · intro hnow
    subst hnow
    have h158 : (required : ℚ) ≤ 158 := by exact_mod_cast h2
    have hcond : (required : ℚ) ≤ 12000 / 60 := by
      rw [show (12000 : ℚ) / 60 = 200 by norm_num]
      linarith
    simp [should_post_now, hcond]

/-- Witness for C5: last post 200 minutes (12000 seconds) ago, required
interval 107 minutes — the gate opens. -/
theorem C5_interval_gate_witness :
    should_post_now (some 0) (0 + 200 * 60) 107 false = (true, 0) :=
  (C5_interval_gate 0 (0 + 200 * 60) 107 (by norm_num) (by norm_num)).2 rfl

/-- `concatPieces` distributes over list append. -/
theorem concatPieces_append (p : Post) (xs ys : List Piece) :
    concatPieces p (xs ++ ys) = concatPieces p xs ++ concatPieces p ys := by
  induction xs with
  | nil => simp [concatPieces, String.empty_append]
  | cons x xs ih => simp [concatPieces, ih, String.append_assoc]

/-- `format_post_variant` renders exactly the piece list `format_pieces`:
the output is the concatenation of the template pieces (with the optional
emoji decoration), nothing more and nothing less. -/
theorem format_post_variant_eq_concat (p : Post) (variant : Nat) (addEmoji : Bool)
    (emoji : String) (atStart : Bool) :
    format_post_variant p variant addEmoji emoji atStart =
      concatPieces p (format_pieces variant addEmoji emoji atStart) := by
  unfold format_post_variant format_pieces variant_pieces
  split_ifs <;>
    simp [concatPieces, renderPiece, String.append_assoc, String.append_empty,
      String.empty_append]

/-- C6: the formatter output is the concatenation of its piece list, and
in every template (all five variants, with or without the emoji
decoration at either end) that piece list contains the body, the
call-to-action and the hashtag block exactly once each; the LinkedIn and
local fixed templates coincide with variant 1 without emoji. -/
theorem C6_formatter_parts_exactly_once (p : Post) (variant : Nat) (addEmoji : Bool)
    (emoji : String) (atStart : Bool) :
    format_post_variant p variant addEmoji emoji atStart =
      concatPieces p (format_pieces variant addEmoji emoji atStart) ∧
    (format_pieces variant addEmoji emoji atStart).countP
      (fun x => decide (x = Piece.body)) = 1 ∧
    (format_pieces variant addEmoji emoji atStart).countP
      (fun x => decide (x = Piece.cta)) = 1 ∧
    (format_pieces variant addEmoji emoji atStart).countP
      (fun x => decide (x = Piece.hashtags)) = 1 ∧
    format_post p = format_post_variant p 1 false "" false ∧
    format_post_local p = format_post_variant p 1 false "" false := by
  refine ⟨format_post_variant_eq_concat p variant addEmoji emoji atStart,
    ?_, ?_, ?_, rfl, rfl⟩ <;>
  · unfold format_pieces variant_pieces
    split_ifs <;> simp [List.countP_cons]

/-- C7: the pool has 11 images; a post is on the cadence exactly when its
sequence number `posts_count + 1` is divisible by 3, and then the chosen
pool index is `(posts_count / 3) % 11`; off-cadence posts select no
image.  Sequence numbers 3, 6, ..., 33 (prior counts 3k+2 for k < 11)
hit the pairwise-distinct indices 0, ..., 10, and sequence number 36
(prior count 35) is the first return to index 0, the index used at
sequence number 3 (prior count 2). -/
theorem C7_round_robin_media (n : Nat) :
    image_files.length = 11 ∧
    ((n + 1) % 3 = 0 → select_image n = image_files[(n / 3) % 11]?) ∧
    ((n + 1) % 3 ≠ 0 → select_image n = none) ∧
    (List.range 11).map (fun k => image_index (3 * k + 2)) = List.range 11 ∧
    image_index 35 = 0 ∧ image_index 2 = 0 := by
  refine ⟨by decide, ?_, ?_, by decide, by decide, by decide⟩
  · intro h
    simp only [select_image, image_index, if_pos h]
    rfl
  · intro h
    simp only [select_image, if_neg h]

/-- Witness for C7: prior count 2 (sequence number 3) selects pool
index 0; prior count 3 (sequence number 4) selects nothing. -/
theorem C7_round_robin_media_witness :
    select_image 2 = image_files[(2 / 3) % 11]? ∧ select_image 3 = none :=
  ⟨(C7_round_robin_media 2).2.1 (by decide), (C7_round_robin_media 3).2.2.1 (by decide)⟩

/-- C8: with credentials and a resolved user id, a failed media upload
(`assetUrn = none`) still submits a payload — a text-only one with
`shareMediaCategory = "NONE"` — and the success of the attempt is
identical to what it would be with a media asset: the media failure
alone never fails the publish. -/
theorem C8_media_failure_falls_back (token envUserId apiUserId : Option String)
    (message : String) (apiStatus : Nat) (apiPostId apiErrMsg asset : String)
    (htok : pyTruthy token = true)
    (huid : pyTruthy (get_user_id envUserId apiUserId) = true) :
    (post_to_linkedin token envUserId apiUserId none message apiStatus
        apiPostId apiErrMsg).submitted =
      some ((get_user_id envUserId apiUserId).getD "",
        { text := message, shareMediaCategory := "NONE", media := none }) ∧
    (post_to_linkedin token envUserId apiUserId none message apiStatus
        apiPostId apiErrMsg).success =
      (post_to_linkedin token envUserId apiUserId (some asset) message apiStatus
        apiPostId apiErrMsg).success := by
  constructor
  · unfold post_to_linkedin
    rw [htok]
    simp only [Bool.true_eq_false, if_false]
    rw [huid]
    simp only [Bool.true_eq_false, if_false]
    by_cases hs : apiStatus = 201 <;> simp [hs]
  · unfold post_to_linkedin
    rw [htok]
    simp only [Bool.true_eq_false, if_false]
    rw [huid]
    simp only [Bool.true_eq_false, if_false]
    by_cases hs : apiStatus = 201 <;> simp [hs]

/-- Witness for C8: present token, environment-provided user id, failed
upload, API rejecting with status 500. -/
theorem C8_media_failure_falls_back_witness :
    (post_to_linkedin (some "tok") (some "u1") none none "msg" 500
        "pid" "err").submitted =
      some ((get_user_id (some "u1") none).getD "",
        { text := "msg", shareMediaCategory := "NONE", media := none }) ∧
    (post_to_linkedin (some "tok") (some "u1") none none "msg" 500
        "pid" "err").success =
      (post_to_linkedin (some "tok") (some "u1") none (some "a") "msg" 500
        "pid" "err").success :=
  C8_media_failure_falls_back (some "tok") (some "u1") none "msg" 500 "pid" "err"
    "a" (by decide) (by decide)

/-- Decoding inverts encoding for a JSON array of strings. -/
theorem decodeStrList_map_str (xs : List String) :
    decodeStrList (xs.map Json.str) = some xs := by
  induction xs with
  | nil => rfl
  | cons x xs ih => simp [decodeStrList, ih]

/-- C9: saving a valid posted log (ids a list of strings, the two
timestamps strings or null) and loading the resulting JSON back yields
exactly the original log: `load(save(L)) == L`.  (`json.dump` /
`json.load` round-trip this JSON fragment — objects of strings, string
arrays and nulls — exactly, so the file is modelled by its JSON
value.) -/
theorem C9_posted_log_roundtrip (L : PostedLog) :
    PostedLog.fromJson (load_posted_log (some (save_posted_log L))) = some L := by
  obtain ⟨ids, t, i⟩ := L
  simp only [load_posted_log, save_posted_log, PostedLog.toJson, PostedLog.fromJson,
    lookupKey]
  simp only [if_pos, if_neg, reduceIte]
  rw [decodeStrList_map_str]
  cases t <;> cases i <;> simp [optStrJson, decodeOptStr]

/-- C10 (implicit): in every one of the five templates, with or without
the emoji decoration at either end, the record's body is rendered
strictly before its call-to-action: the output splits as
`pre ++ body ++ mid ++ cta ++ post'`; the same holds for the fixed
LinkedIn and local templates. -/
theorem C10_body_before_cta (p : Post) (variant : Nat) (addEmoji : Bool)
    (emoji : String) (atStart : Bool) :
    (∃ pre mid post', format_post_variant p variant addEmoji emoji atStart =
        pre ++ (p.content ++ (mid ++ (p.cta ++ post')))) ∧
    (∃ mid post', format_post p = p.content ++ (mid ++ (p.cta ++ post'))) ∧
    (∃ mid post', format_post_local p = p.content ++ (mid ++ (p.cta ++ post'))) := by
  refine ⟨?_, ⟨"\n\n", "\n\n" ++ p.hashtags, by simp [format_post, String.append_assoc]⟩,
    ⟨"\n\n", "\n\n" ++ p.hashtags, by simp [format_post_local, String.append_assoc]⟩⟩
  obtain ⟨l1, l2, l3, hdec⟩ : ∃ l1 l2 l3,
      format_pieces variant addEmoji emoji atStart =
        l1 ++ Piece.body :: (l2 ++ Piece.cta :: l3) := by
    unfold format_pieces variant_pieces
    split_ifs
    · exact ⟨[Piece.lit (emoji ++ " ")], [Piece.lit "\n\n"],
        [Piece.lit "\n\n", Piece.hashtags], rfl⟩
    · exact ⟨[], [Piece.lit "\n\n"],
        [Piece.lit "\n\n", Piece.hashtags, Piece.lit (" " ++ emoji)], rfl⟩
    · exact ⟨[], [Piece.lit "\n\n"], [Piece.lit "\n\n", Piece.hashtags], rfl⟩
    · exact ⟨[Piece.lit (emoji ++ " "), Piece.hashtags, Piece.lit "\n\n"],
        [Piece.lit "\n\n"], [], rfl⟩
    · exact ⟨[Piece.hashtags, Piece.lit "\n\n"], [Piece.lit "\n\n"],
        [Piece.lit (" " ++ emoji)], rfl⟩
    · exact ⟨[Piece.hashtags, Piece.lit "\n\n"], [Piece.lit "\n\n"], [], rfl⟩
    · exact ⟨[Piece.lit (emoji ++ " ")],
        [Piece.lit "\n\n", Piece.hashtags, Piece.lit "\n\n"], [], rfl⟩
    · exact ⟨[], [Piece.lit "\n\n", Piece.hashtags, Piece.lit "\n\n"],
        [Piece.lit (" " ++ emoji)], rfl⟩
    · exact ⟨[], [Piece.lit "\n\n", Piece.hashtags, Piece.lit "\n\n"], [], rfl⟩
    · exact ⟨[Piece.lit (emoji ++ " ")], [Piece.lit "\n\n\n"],
        [Piece.lit "\n\n", Piece.hashtags], rfl⟩
    · exact ⟨[], [Piece.lit "\n\n\n"],
        [Piece.lit "\n\n", Piece.hashtags, Piece.lit (" " ++ emoji)], rfl⟩
    · exact ⟨[], [Piece.lit "\n\n\n"], [Piece.lit "\n\n", Piece.hashtags], rfl⟩
    · exact ⟨[Piece.lit (emoji ++ " ")], [Piece.lit "\n"],
        [Piece.lit "\n", Piece.hashtags], rfl⟩
    · exact ⟨[], [Piece.lit "\n"],
        [Piece.lit "\n", Piece.hashtags, Piece.lit (" " ++ emoji)], rfl⟩
    · exact ⟨[], [Piece.lit "\n"], [Piece.lit "\n", Piece.hashtags], rfl⟩
  refine ⟨concatPieces p l1, concatPieces p l2, concatPieces p l3, ?_⟩
  rw [format_post_variant_eq_concat p variant addEmoji emoji atStart, hdec,
    concatPieces_append]
  simp [concatPieces, renderPiece, concatPieces_append, String.append_assoc]
